import Mathlib

/-!
# Database start-up of crud-wizard (`lib/db.go`)

`InitializeDatabase` is a straight-line sequence of calls into the Go standard
library (`os.Getenv`), `gorm` (`Open`, `LogMode`, `AutoMigrate`) and
`qor/validations` (`RegisterCallbacks`), around one package-level variable,
`Database`.  The embedding passes that variable explicitly, takes the answers
of the libraries as parameters (`World`), and records every library call that
is issued, in order, as a list of `Event`s.
-/

namespace CrudWizard

/-- A live `gorm.DB` object; `*gorm.DB` is `Option Handle`, with `none` for `nil`. -/
structure Handle where
  id : Nat
deriving DecidableEq, Repr

/-- A non-nil Go `error` value, identified by its message. -/
abbrev GoError := String

/-- The record types of package `models` that `lib/db.go` hands to `AutoMigrate`. -/
inductive RecordType where
  | User
  | Project
  | AuthToken
deriving DecidableEq, Repr

/-- What `gorm.Open` hands back, a pair `(*gorm.DB, error)`.  With a nil error
the pointer is the freshly built handle; with a non-nil error the pointer is
whatever `Open` returned beside it (nil, or a handle whose ping failed). -/
inductive OpenResult where
  | ok (db : Handle)
  | fail (db : Option Handle) (err : GoError)
deriving DecidableEq, Repr

/-- The surroundings of one start-up: the process environment and the answers of
the library calls.  `autoMigrate db v` is the error left on the `*gorm.DB` that
`db.AutoMigrate(&v{})` returns (`none` when the migration went through). -/
structure World where
  env : String → Option String
  gormOpen : String → String → OpenResult
  autoMigrate : Handle → RecordType → Option GoError

/-- Library calls issued by `InitializeDatabase`, with their arguments; an
`autoMigrate` event also carries the error the call came back with. -/
inductive Event where
  | gormOpen (dialect : String) (source : String)
  | registerCallbacks (db : Handle)
  | logMode (db : Handle) (enable : Bool)
  | autoMigrate (db : Handle) (value : RecordType) (result : Option GoError)
deriving DecidableEq, Repr

/-- How a call ends: it returns, or it panics with a value. -/
inductive Outcome where
  | returned
  | panicked (err : GoError)
deriving DecidableEq, Repr

/-- One execution of `InitializeDatabase`: the value of the package variable
`Database` when the call ends, how it ends, and the calls it issued. -/
structure Run where
  Database : Option Handle
  outcome : Outcome
  effects : List Event
deriving DecidableEq, Repr

/-- `os.Getenv`: the value of the variable, or the empty string when it is unset. -/
def Getenv (env : String → Option String) (key : String) : String :=
  match env key with
  | some v => v
  | none => ""

/-- Lines 17-21 of `lib/db.go`: the local `connectionString` after the default
has been filled in. -/
def connectionString (env : String → Option String) : String :=
  let connectionString := Getenv env "POSTGRES_CONNECTION_STRING"
  if connectionString = "" then
    "user=crudwizard password=crudwizard dbname=crudwizard sslmode=disable"
  else
    connectionString

/-- `InitializeDatabase` of `lib/db.go`.  The first argument after the world is
the value `Database` holds when the call starts.  The assignment
`Database, err = gorm.Open(...)` stores the returned pointer before `err` is
looked at; `panic(err)` ends the call there.  The values returned by
`AutoMigrate` are dropped. -/
def InitializeDatabase (w : World) (_Database : Option Handle) : Run :=
  let connectionString := connectionString w.env
  match w.gormOpen "postgres" connectionString with
  | OpenResult.fail db err =>
    { Database := db
      outcome := Outcome.panicked err
      effects := [Event.gormOpen "postgres" connectionString] }
  | OpenResult.ok db =>
    { Database := some db
      outcome := Outcome.returned
      effects :=
        [ Event.gormOpen "postgres" connectionString,
          Event.registerCallbacks db,
          Event.logMode db true,
          Event.autoMigrate db RecordType.User (w.autoMigrate db RecordType.User),
          Event.autoMigrate db RecordType.Project (w.autoMigrate db RecordType.Project),
          Event.autoMigrate db RecordType.AuthToken (w.autoMigrate db RecordType.AuthToken) ] }

/-- The `(dialect, source)` pairs of the `gorm.Open` calls in a list of events. -/
def openCalls : List Event → List (String × String)
  | [] => []
  | Event.gormOpen d s :: es => (d, s) :: openCalls es
  | _ :: es => openCalls es

/-- The record types of the `AutoMigrate` calls in a list of events, in order. -/
def migrated : List Event → List RecordType
  | [] => []
  | Event.autoMigrate _ v _ :: es => v :: migrated es
  | _ :: es => migrated es

/-- The `(handle, flag)` pairs of the `LogMode` calls in a list of events. -/
def logModeCalls : List Event → List (Handle × Bool)
  | [] => []
  | Event.logMode db b :: es => (db, b) :: logModeCalls es
  | _ :: es => logModeCalls es

/-- The handles of the `validations.RegisterCallbacks` calls in a list of events. -/
def registerCalls : List Event → List Handle
  | [] => []
  | Event.registerCallbacks db :: es => db :: registerCalls es
  | _ :: es => registerCalls es

/-- The `AutoMigrate` calls in a list of events, each with the error it came
back with, in order. -/
def migrationResults : List Event → List (RecordType × Option GoError)
  | [] => []
  | Event.autoMigrate _ v r :: es => (v, r) :: migrationResults es
  | _ :: es => migrationResults es

/-- A world for examples: the environment is given as a list of bindings, every
open answers `r`, and every migration answers `m`. -/
def mkWorld (bindings : List (String × String)) (r : OpenResult) (m : Option GoError) : World :=
  { env := fun k => (bindings.find? (fun b => b.1 = k)).map (fun b => b.2)
    gormOpen := fun _ _ => r
    autoMigrate := fun _ _ => m }

/-! ## The two branches of `InitializeDatabase` -/

theorem connectionString_unset (env : String → Option String)
    (h : env "POSTGRES_CONNECTION_STRING" = none ∨ env "POSTGRES_CONNECTION_STRING" = some "") :
    connectionString env
      = "user=crudwizard password=crudwizard dbname=crudwizard sslmode=disable" := by
  rcases h with h | h <;> simp [connectionString, Getenv, h]

theorem connectionString_set (env : String → Option String) (s : String)
    (h : env "POSTGRES_CONNECTION_STRING" = some s) (hs : s ≠ "") :
    connectionString env = s := by
  simp [connectionString, Getenv, h, hs]

theorem InitializeDatabase_fail (w : World) (d db : Option Handle) (e : GoError)
    (h : w.gormOpen "postgres" (connectionString w.env) = OpenResult.fail db e) :
    InitializeDatabase w d =
      { Database := db
        outcome := Outcome.panicked e
        effects := [Event.gormOpen "postgres" (connectionString w.env)] } := by
  simp [InitializeDatabase, h]

theorem InitializeDatabase_ok (w : World) (d : Option Handle) (db : Handle)
    (h : w.gormOpen "postgres" (connectionString w.env) = OpenResult.ok db) :
    InitializeDatabase w d =
      { Database := some db
        outcome := Outcome.returned
        effects :=
          [ Event.gormOpen "postgres" (connectionString w.env),
            Event.registerCallbacks db,
            Event.logMode db true,
            Event.autoMigrate db RecordType.User (w.autoMigrate db RecordType.User),
            Event.autoMigrate db RecordType.Project (w.autoMigrate db RecordType.Project),
            Event.autoMigrate db RecordType.AuthToken (w.autoMigrate db RecordType.AuthToken) ] } := by
  simp [InitializeDatabase, h]

theorem openCalls_InitializeDatabase (w : World) (d : Option Handle) :
    openCalls (InitializeDatabase w d).effects = [("postgres", connectionString w.env)] := by
  cases h : w.gormOpen "postgres" (connectionString w.env) with
  | ok db => rw [InitializeDatabase_ok w d db h]; rfl
  | fail db e => rw [InitializeDatabase_fail w d db e h]; rfl

/-! ## The connection string -/

/-- C1: when `POSTGRES_CONNECTION_STRING` is unset or set to the empty string,
the one `gorm.Open` call of `InitializeDatabase` is made with dialect
`postgres` and exactly the hardcoded default connection string. -/
theorem default_connection_string_when_unset (w : World) (d : Option Handle)
    (h : w.env "POSTGRES_CONNECTION_STRING" = none
      ∨ w.env "POSTGRES_CONNECTION_STRING" = some "") :
    openCalls (InitializeDatabase w d).effects
      = [("postgres", "user=crudwizard password=crudwizard dbname=crudwizard sslmode=disable")] := by
  rw [openCalls_InitializeDatabase, connectionString_unset w.env h]

theorem default_connection_string_when_unset_witness :
    ((mkWorld [("HOME", "/root")] (OpenResult.ok ⟨1⟩) none).env "POSTGRES_CONNECTION_STRING" = none
      ∨ (mkWorld [("HOME", "/root")] (OpenResult.ok ⟨1⟩) none).env "POSTGRES_CONNECTION_STRING"
          = some "")
    ∧ openCalls (InitializeDatabase (mkWorld [("HOME", "/root")] (OpenResult.ok ⟨1⟩) none) none).effects
      = [("postgres", "user=crudwizard password=crudwizard dbname=crudwizard sslmode=disable")] :=
  ⟨Or.inl (by decide),
   default_connection_string_when_unset (mkWorld [("HOME", "/root")] (OpenResult.ok ⟨1⟩) none) none
     (Or.inl (by decide))⟩

/-- C2: when `POSTGRES_CONNECTION_STRING` holds a non-empty value `s` (any
non-empty string: whitespace only, or equal to the default), the one
`gorm.Open` call of `InitializeDatabase` is made with exactly `s`. -/
theorem connection_string_verbatim (w : World) (d : Option Handle) (s : String)
    (h : w.env "POSTGRES_CONNECTION_STRING" = some s) (hs : s ≠ "") :
    openCalls (InitializeDatabase w d).effects = [("postgres", s)] := by
  rw [openCalls_InitializeDatabase, connectionString_set w.env s h hs]

theorem connection_string_verbatim_witness :
    (mkWorld [("POSTGRES_CONNECTION_STRING", "  ")] (OpenResult.ok ⟨1⟩) none).env
        "POSTGRES_CONNECTION_STRING" = some "  "
    ∧ "  " ≠ ""
    ∧ openCalls (InitializeDatabase
        (mkWorld [("POSTGRES_CONNECTION_STRING", "  ")] (OpenResult.ok ⟨1⟩) none) none).effects
      = [("postgres", "  ")] :=
  ⟨by decide, by decide,
   connection_string_verbatim
     (mkWorld [("POSTGRES_CONNECTION_STRING", "  ")] (OpenResult.ok ⟨1⟩) none) none "  "
     (by decide) (by decide)⟩

/-! ## Failure of the open call -/

/-- C3: when `gorm.Open` returns an error, `InitializeDatabase` panics with
that very error and the open call is the only call it issued: no validation
callbacks registered, no `LogMode`, no `AutoMigrate` for any record type. -/
theorem open_failure_aborts (w : World) (d db : Option Handle) (e : GoError)
    (h : w.gormOpen "postgres" (connectionString w.env) = OpenResult.fail db e) :
    (InitializeDatabase w d).outcome = Outcome.panicked e
    ∧ (InitializeDatabase w d).effects = [Event.gormOpen "postgres" (connectionString w.env)]
    ∧ registerCalls (InitializeDatabase w d).effects = []
    ∧ logModeCalls (InitializeDatabase w d).effects = []
    ∧ migrated (InitializeDatabase w d).effects = []
    ∧ (∀ db' v r, Event.autoMigrate db' v r ∉ (InitializeDatabase w d).effects) := by
  rw [InitializeDatabase_fail w d db e h]
  refine ⟨rfl, rfl, rfl, rfl, rfl, ?_⟩
  intro db' v r hmem
  simp at hmem

theorem open_failure_aborts_witness :
    (mkWorld [] (OpenResult.fail none "connection refused") none).gormOpen "postgres"
        (connectionString (mkWorld [] (OpenResult.fail none "connection refused") none).env)
      = OpenResult.fail none "connection refused"
    ∧ (InitializeDatabase (mkWorld [] (OpenResult.fail none "connection refused") none) none).outcome
      = Outcome.panicked "connection refused"
    ∧ registerCalls
        (InitializeDatabase (mkWorld [] (OpenResult.fail none "connection refused") none) none).effects
      = [] :=
  have h := open_failure_aborts (mkWorld [] (OpenResult.fail none "connection refused") none)
    none none "connection refused" rfl
  ⟨rfl, h.1, h.2.2.1⟩

/-! ## Success of the open call -/

/-- C4: when `gorm.Open` succeeds with handle `db`, `InitializeDatabase` returns,
`Database` then holds `db` (so it is not nil), and the `AutoMigrate` calls are
exactly one for `User`, one for `Project` and one for `AuthToken`. -/
theorem success_sets_handle_and_migrates_each_once (w : World) (d : Option Handle) (db : Handle)
    (h : w.gormOpen "postgres" (connectionString w.env) = OpenResult.ok db) :
    (InitializeDatabase w d).outcome = Outcome.returned
    ∧ (InitializeDatabase w d).Database = some db
    ∧ (InitializeDatabase w d).Database ≠ none
    ∧ migrated (InitializeDatabase w d).effects
        = [RecordType.User, RecordType.Project, RecordType.AuthToken]
    ∧ (∀ v : RecordType, (migrated (InitializeDatabase w d).effects).count v = 1) := by
  rw [InitializeDatabase_ok w d db h]
  refine ⟨rfl, rfl, by simp, rfl, ?_⟩
  intro v
  cases v <;> simp [migrated]

theorem success_sets_handle_and_migrates_each_once_witness :
    (mkWorld [] (OpenResult.ok ⟨7⟩) none).gormOpen "postgres"
        (connectionString (mkWorld [] (OpenResult.ok ⟨7⟩) none).env) = OpenResult.ok ⟨7⟩
    ∧ (InitializeDatabase (mkWorld [] (OpenResult.ok ⟨7⟩) none) none).Database = some ⟨7⟩
    ∧ migrated (InitializeDatabase (mkWorld [] (OpenResult.ok ⟨7⟩) none) none).effects
        = [RecordType.User, RecordType.Project, RecordType.AuthToken] :=
  have h := success_sets_handle_and_migrates_each_once (mkWorld [] (OpenResult.ok ⟨7⟩) none)
    none ⟨7⟩ rfl
  ⟨rfl, h.2.1, h.2.2.2.1⟩

/-! ## Query logging -/

/-- C5 as stated fails: in a start-up whose open call returns an error,
`InitializeDatabase` panics and has issued no `LogMode` call at all. -/
theorem logging_not_enabled_on_open_failure :
    (InitializeDatabase (mkWorld [] (OpenResult.fail none "connection refused") none) none).outcome
      = Outcome.panicked "connection refused"
    ∧ logModeCalls
        (InitializeDatabase (mkWorld [] (OpenResult.fail none "connection refused") none) none).effects
      = []
    ∧ ¬ ∃ db, Event.logMode db true ∈
        (InitializeDatabase (mkWorld [] (OpenResult.fail none "connection refused") none) none).effects := by
  refine ⟨rfl, rfl, ?_⟩
  rintro ⟨db, hmem⟩
  simp [InitializeDatabase, mkWorld] at hmem

/-- C5, amended: whenever `gorm.Open` succeeds with handle `db`, whatever the
environment, `InitializeDatabase` issues `LogMode(true)` on `db`, once, and
no other `LogMode` call. -/
theorem logging_enabled_on_success (w : World) (d : Option Handle) (db : Handle)
    (h : w.gormOpen "postgres" (connectionString w.env) = OpenResult.ok db) :
    logModeCalls (InitializeDatabase w d).effects = [(db, true)]
    ∧ Event.logMode db true ∈ (InitializeDatabase w d).effects := by
  rw [InitializeDatabase_ok w d db h]
  exact ⟨rfl, by simp⟩

theorem logging_enabled_on_success_witness :
    (mkWorld [("DEBUG", "false")] (OpenResult.ok ⟨2⟩) none).gormOpen "postgres"
        (connectionString (mkWorld [("DEBUG", "false")] (OpenResult.ok ⟨2⟩) none).env)
      = OpenResult.ok ⟨2⟩
    ∧ logModeCalls
        (InitializeDatabase (mkWorld [("DEBUG", "false")] (OpenResult.ok ⟨2⟩) none) none).effects
      = [(⟨2⟩, true)] :=
  ⟨rfl, (logging_enabled_on_success (mkWorld [("DEBUG", "false")] (OpenResult.ok ⟨2⟩) none)
    none ⟨2⟩ rfl).1⟩

/-! ## Migration results are dropped -/

/-- C6: when `gorm.Open` succeeds, then whatever the three `AutoMigrate` calls
come back with (`r1`, `r2`, `r3`: an error or none, in any combination),
`InitializeDatabase` issues all three calls, in the order `User`, `Project`,
`AuthToken`, and returns without a panic. -/
theorem migration_failures_not_checked (w : World) (d : Option Handle) (db : Handle)
    (r1 r2 r3 : Option GoError)
    (h : w.gormOpen "postgres" (connectionString w.env) = OpenResult.ok db)
    (h1 : w.autoMigrate db RecordType.User = r1)
    (h2 : w.autoMigrate db RecordType.Project = r2)
    (h3 : w.autoMigrate db RecordType.AuthToken = r3) :
    (InitializeDatabase w d).outcome = Outcome.returned
    ∧ migrationResults (InitializeDatabase w d).effects
        = [(RecordType.User, r1), (RecordType.Project, r2), (RecordType.AuthToken, r3)] := by
  rw [InitializeDatabase_ok w d db h, h1, h2, h3]
  exact ⟨rfl, rfl⟩

theorem migration_failures_not_checked_witness :
    (mkWorld [] (OpenResult.ok ⟨1⟩) (some "pq: permission denied")).gormOpen "postgres"
        (connectionString (mkWorld [] (OpenResult.ok ⟨1⟩) (some "pq: permission denied")).env)
      = OpenResult.ok ⟨1⟩
    ∧ (mkWorld [] (OpenResult.ok ⟨1⟩) (some "pq: permission denied")).autoMigrate ⟨1⟩ RecordType.User
      = some "pq: permission denied"
    ∧ (InitializeDatabase (mkWorld [] (OpenResult.ok ⟨1⟩) (some "pq: permission denied")) none).outcome
      = Outcome.returned
    ∧ migrationResults
        (InitializeDatabase (mkWorld [] (OpenResult.ok ⟨1⟩) (some "pq: permission denied")) none).effects
      = [(RecordType.User, some "pq: permission denied"),
         (RecordType.Project, some "pq: permission denied"),
         (RecordType.AuthToken, some "pq: permission denied")] :=
  have h := migration_failures_not_checked (mkWorld [] (OpenResult.ok ⟨1⟩) (some "pq: permission denied"))
    none ⟨1⟩ (some "pq: permission denied") (some "pq: permission denied")
    (some "pq: permission denied") rfl rfl rfl rfl
  ⟨rfl, rfl, h.1, h.2⟩

/-! ## The package variable on failure -/

/-- C7 as stated fails: `Database` starts as nil, `gorm.Open` returns a handle
together with an error, and when `InitializeDatabase` panics `Database` holds
that handle, not its prior value. -/
theorem handle_overwritten_on_open_failure :
    (mkWorld [] (OpenResult.fail (some ⟨1⟩) "dial tcp: connection refused") none).gormOpen "postgres"
        (connectionString
          (mkWorld [] (OpenResult.fail (some ⟨1⟩) "dial tcp: connection refused") none).env)
      = OpenResult.fail (some ⟨1⟩) "dial tcp: connection refused"
    ∧ (InitializeDatabase
        (mkWorld [] (OpenResult.fail (some ⟨1⟩) "dial tcp: connection refused") none) none).outcome
      = Outcome.panicked "dial tcp: connection refused"
    ∧ (InitializeDatabase
        (mkWorld [] (OpenResult.fail (some ⟨1⟩) "dial tcp: connection refused") none) none).Database
      ≠ none := by
  refine ⟨rfl, rfl, ?_⟩
  simp [InitializeDatabase, mkWorld]

/-- C7, amended: `Database` is assigned by the open statement itself, before
the error check.  When `gorm.Open` fails, returning pointer `db` beside the
error, `InitializeDatabase` panics with `Database` holding `db`, whatever its
prior value `d`; it holds the prior value exactly when `db` equals it. -/
theorem handle_assigned_before_error_check (w : World) (d db : Option Handle) (e : GoError)
    (h : w.gormOpen "postgres" (connectionString w.env) = OpenResult.fail db e) :
    (InitializeDatabase w d).outcome = Outcome.panicked e
    ∧ (InitializeDatabase w d).Database = db
    ∧ ((InitializeDatabase w d).Database = d ↔ db = d) := by
  rw [InitializeDatabase_fail w d db e h]
  exact ⟨rfl, rfl, Iff.rfl⟩

theorem handle_assigned_before_error_check_witness :
    (mkWorld [] (OpenResult.fail none "bad source") none).gormOpen "postgres"
        (connectionString (mkWorld [] (OpenResult.fail none "bad source") none).env)
      = OpenResult.fail none "bad source"
    ∧ (InitializeDatabase (mkWorld [] (OpenResult.fail none "bad source") none) (some ⟨3⟩)).outcome
      = Outcome.panicked "bad source"
    ∧ (InitializeDatabase (mkWorld [] (OpenResult.fail none "bad source") none) (some ⟨3⟩)).Database
      = none
    ∧ ((InitializeDatabase (mkWorld [] (OpenResult.fail none "bad source") none) (some ⟨3⟩)).Database
        = some ⟨3⟩ ↔ (none : Option Handle) = some ⟨3⟩) :=
  ⟨rfl, handle_assigned_before_error_check (mkWorld [] (OpenResult.fail none "bad source") none)
    (some ⟨3⟩) none "bad source" rfl⟩

/-! ## Order of the calls -/

/-- C8: on a successful run the calls of `InitializeDatabase` are, in this
order and each once: `gorm.Open`, `validations.RegisterCallbacks`,
`LogMode(true)`, `AutoMigrate` of `User`, of `Project`, of `AuthToken`; all
calls after the open are on the handle `db` that `Database` holds at the end. -/
theorem success_call_order (w : World) (d : Option Handle) (db : Handle)
    (h : w.gormOpen "postgres" (connectionString w.env) = OpenResult.ok db) :
    (InitializeDatabase w d).effects =
      [ Event.gormOpen "postgres" (connectionString w.env),
        Event.registerCallbacks db,
        Event.logMode db true,
        Event.autoMigrate db RecordType.User (w.autoMigrate db RecordType.User),
        Event.autoMigrate db RecordType.Project (w.autoMigrate db RecordType.Project),
        Event.autoMigrate db RecordType.AuthToken (w.autoMigrate db RecordType.AuthToken) ]
    ∧ (InitializeDatabase w d).Database = some db
    ∧ (InitializeDatabase w d).outcome = Outcome.returned := by
  rw [InitializeDatabase_ok w d db h]
  exact ⟨rfl, rfl, rfl⟩

theorem success_call_order_witness :
    (InitializeDatabase (mkWorld [("POSTGRES_CONNECTION_STRING", "dbname=x")] (OpenResult.ok ⟨5⟩) none)
        none).effects =
      [ Event.gormOpen "postgres" "dbname=x",
        Event.registerCallbacks ⟨5⟩,
        Event.logMode ⟨5⟩ true,
        Event.autoMigrate ⟨5⟩ RecordType.User none,
        Event.autoMigrate ⟨5⟩ RecordType.Project none,
        Event.autoMigrate ⟨5⟩ RecordType.AuthToken none ]
    ∧ (InitializeDatabase (mkWorld [("POSTGRES_CONNECTION_STRING", "dbname=x")] (OpenResult.ok ⟨5⟩) none)
        none).Database = some ⟨5⟩ :=
  have h := success_call_order
    (mkWorld [("POSTGRES_CONNECTION_STRING", "dbname=x")] (OpenResult.ok ⟨5⟩) none) none ⟨5⟩ rfl
  ⟨h.1.trans (by decide), h.2.1⟩

/-! ## What the open call depends on -/

/-- C9: every run of `InitializeDatabase` makes exactly one `gorm.Open` call,
with dialect `postgres`; and two runs whose environments agree on
`POSTGRES_CONNECTION_STRING` pass the same connection string, whatever else
differs between them (other variables, the library answers, the prior value of
`Database`). -/
theorem open_call_depends_only_on_variable (w1 w2 : World) (d1 d2 : Option Handle)
    (h : w1.env "POSTGRES_CONNECTION_STRING" = w2.env "POSTGRES_CONNECTION_STRING") :
    ∃ source : String,
      openCalls (InitializeDatabase w1 d1).effects = [("postgres", source)]
      ∧ openCalls (InitializeDatabase w2 d2).effects = [("postgres", source)] := by
  refine ⟨connectionString w1.env, openCalls_InitializeDatabase w1 d1, ?_⟩
  rw [openCalls_InitializeDatabase w2 d2]
  simp [connectionString, Getenv, h]

theorem open_call_depends_only_on_variable_witness :
    (mkWorld [("POSTGRES_CONNECTION_STRING", "dbname=x"), ("PORT", "80")]
        (OpenResult.ok ⟨1⟩) none).env "POSTGRES_CONNECTION_STRING"
      = (mkWorld [("PORT", "8080"), ("POSTGRES_CONNECTION_STRING", "dbname=x")]
        (OpenResult.fail none "timeout") none).env "POSTGRES_CONNECTION_STRING"
    ∧ ∃ source : String,
      openCalls (InitializeDatabase
          (mkWorld [("POSTGRES_CONNECTION_STRING", "dbname=x"), ("PORT", "80")]
            (OpenResult.ok ⟨1⟩) none) none).effects = [("postgres", source)]
      ∧ openCalls (InitializeDatabase
          (mkWorld [("PORT", "8080"), ("POSTGRES_CONNECTION_STRING", "dbname=x")]
            (OpenResult.fail none "timeout") none) (some ⟨9⟩)).effects = [("postgres", source)] :=
  ⟨by decide,
   open_call_depends_only_on_variable
     (mkWorld [("POSTGRES_CONNECTION_STRING", "dbname=x"), ("PORT", "80")] (OpenResult.ok ⟨1⟩) none)
     (mkWorld [("PORT", "8080"), ("POSTGRES_CONNECTION_STRING", "dbname=x")]
       (OpenResult.fail none "timeout") none)
     none (some ⟨9⟩) (by decide)⟩

end CrudWizard
